import Mathlib

/-!
Verification development for the Cachelib tiered-memory core.

Shallow embedding of:
 - `cachelib/allocator/memory/CompressedPtr.h` (CompressedPtr, PtrCompressor);
 - `cachelib/allocator/MemoryTierCacheConfig.h` (per-tier size / ratio config);
 - the memory-tier capacity resolver of `CacheAllocatorConfig`
   (configureMemoryTiers / validate / setCacheSize), which is exercised by
   `cachelib/allocator/tests/MemoryTiersTest.cpp` but whose implementation
   header is not part of this source snapshot, so it is modelled from the
   specification;
 - `SlabAllocator` membership and single-tier compression, likewise modelled
   from the specification.

Machine integers are modelled as `Nat` with explicit `% 2 ^ w` where the C++
code can wrap.
-/

namespace Cachelib

/-- Slab size constant `Slab::kNumSlabBits` (22): a slab holds `2^22` bytes.
(`Slab.h` is not in the snapshot; the value 22 is fixed by the specification
and by the comments in `CompressedPtr.h`.) -/
def kNumSlabBits : Nat := 22

/-- Minimum allocation size exponent `Slab::kMinAllocPower` (6): the smallest
allocation is `2^6 = 64` bytes. -/
def kMinAllocPower : Nat := 6

namespace CompressedPtr

/-- Total number of bits in the compressed pointer word (`PtrType = uint64_t`). -/
def kNumBits : Nat := 64

/-- Number of bits for the allocation index inside a slab:
`Slab::kNumSlabBits - Slab::kMinAllocPower = 16`. -/
def kNumAllocIdxBits : Nat := kNumSlabBits - kMinAllocPower

/-- The tier id occupies the topmost 32 bits (`kNumTierIdxOffset = 32`). -/
def kNumTierIdxOffset : Nat := 32

/-- Mask of the allocation-index bits: `((PtrType)1 << kNumAllocIdxBits) - 1`. -/
def kAllocIdxMask : Nat := 2 ^ kNumAllocIdxBits - 1

/-- Mask of the tier-id bits:
`(((PtrType)1 << kNumTierIdxOffset) - 1) << (kNumBits - kNumTierIdxOffset)`,
i.e. the top 32 bits of the 64-bit word. -/
def kTierIdxMask : Nat := (2 ^ kNumTierIdxOffset - 1) * 2 ^ (kNumBits - kNumTierIdxOffset)

/-- Number of bits for the slab index:
`NumBits<PtrType>::value - kNumTierIdxOffset - kNumAllocIdxBits = 16`. -/
def kNumSlabIdxBits : Nat := kNumBits - kNumTierIdxOffset - kNumAllocIdxBits

/-- Null sentinel `kNull = 0x00000000ffffffff`: low 32 bits all ones, high 32
bits zero. -/
def kNull : Nat := 0x00000000ffffffff

/-- CompressedPtr::compress.  C++:
`(static_cast<uint64_t>(tid) << kNumTierIdxOffset) + (slabIdx << kNumAllocIdxBits) + allocIdx`.
`slabIdx` and `allocIdx` are `uint32_t` parameters (hence the `% 2 ^ 32` at
entry); `slabIdx << kNumAllocIdxBits` is computed in 32-bit unsigned
arithmetic and wraps modulo `2 ^ 32`; the additions are performed in 64-bit
unsigned arithmetic.  `(tid * 2 ^ 32) % 2 ^ 64` is independent of the width of
`TierId` beyond 32 bits, so no entry truncation of `tid` is needed. -/
def compress (slabIdx allocIdx tid : Nat) : Nat :=
  (tid * 2 ^ kNumTierIdxOffset % 2 ^ 64
    + ((slabIdx % 2 ^ 32) * 2 ^ kNumAllocIdxBits) % 2 ^ 32
    + allocIdx % 2 ^ 32) % 2 ^ 64

/-- CompressedPtr::isNull: `ptr_ == kNull`. -/
def isNull (p : Nat) : Bool := p = kNull

/-- CompressedPtr::getSlabIdx.  C++: `(ptr_ & ~kTierIdxMask) >> kNumAllocIdxBits`
cast to `uint32_t`.  In 64-bit arithmetic `~kTierIdxMask` is the low-32-bit
mask, so `ptr_ & ~kTierIdxMask = ptr_ % 2 ^ 32`; the shift is division and the
final cast is `% 2 ^ 32`. -/
def getSlabIdx (p : Nat) : Nat := ((p % 2 ^ 32) / 2 ^ kNumAllocIdxBits) % 2 ^ 32

/-- CompressedPtr::getAllocIdx.  C++: `(ptr_ & ~kTierIdxMask) & kAllocIdxMask`
cast to `uint32_t`; masking with `kAllocIdxMask = 2 ^ 16 - 1` is
`% 2 ^ kNumAllocIdxBits`. -/
def getAllocIdx (p : Nat) : Nat := ((p % 2 ^ 32) % 2 ^ kNumAllocIdxBits) % 2 ^ 32

/-- CompressedPtr::getTierId.  C++: `static_cast<uint32_t>(ptr_ >> kNumTierIdxOffset)`. -/
def getTierId (p : Nat) : Nat := (p / 2 ^ kNumTierIdxOffset) % 2 ^ 32

/-- CompressedPtr::setTierId.  C++:
`ptr_ += static_cast<uint64_t>(tid) << kNumTierIdxOffset`, a 64-bit wrapping
addition (note: addition, not bitwise OR). -/
def setTierId (p tid : Nat) : Nat := (p + tid * 2 ^ kNumTierIdxOffset) % 2 ^ 64

end CompressedPtr

/-- Per-tier configuration from `MemoryTierCacheConfig.h`: field `size{0}`
(bytes) and field `ratio{0}` (number of parts), both `size_t`, both
defaulting to 0 which means unset. -/
structure MemoryTierCacheConfig where
  size : Nat
  ratio : Nat
deriving DecidableEq, Repr

namespace MemoryTierCacheConfig

/-- MemoryTierCacheConfig::fromFile: the freshly built config has the
default fields `size = 0`, `ratio = 0` (the shm path is not modelled). -/
def fromFile : MemoryTierCacheConfig := { size := 0, ratio := 0 }

/-- MemoryTierCacheConfig::setSize: `size = _size`. -/
def setSize (c : MemoryTierCacheConfig) (s : Nat) : MemoryTierCacheConfig :=
  { c with size := s }

/-- Conversion performed by the assignment `ratio = _ratio` in
`setRatio(double _ratio)`: a C++ `double` narrowed to `size_t` is truncated
toward zero ([conv.fpint]); the double argument is modelled as a rational.
For every argument `r > -1` (in particular every non-negative argument, the
only defined ones for `size_t`) truncation toward zero equals `⌊r⌋.toNat`. -/
def doubleToSizeT (r : ℚ) : Nat := (⌊r⌋).toNat

/-- MemoryTierCacheConfig::setRatio: declared `setRatio(double _ratio)` but
assigns to the `size_t` field `ratio`, so the argument is truncated. -/
def setRatio (c : MemoryTierCacheConfig) (r : ℚ) : MemoryTierCacheConfig :=
  { c with ratio := doubleToSizeT r }

/-- MemoryTierCacheConfig::getRatio: `return ratio;` (a `size_t`). -/
def getRatio (c : MemoryTierCacheConfig) : Nat := c.ratio

/-- MemoryTierCacheConfig::getSize: `return size;`. -/
def getSize (c : MemoryTierCacheConfig) : Nat := c.size

end MemoryTierCacheConfig

/-- Error kind raised as `std::invalid_argument` by the configuration
validator.  Both constructors model `InvalidConfig`; `partitionsTooLarge`
carries the distinguished PartitionsTooLarge report of the all-ratio branch. -/
inductive ConfigError where
  | invalidConfig
  | partitionsTooLarge
deriving DecidableEq, Repr

/-- Modelled from the spec: the `CacheAllocatorConfig` state relevant to the
memory-tier resolver — `totalCacheSize`, the ordered tier list, and whether
the tier configuration has been frozen (after which `setCacheSize` is
rejected).  `CacheAllocatorConfig.h` is not part of the source snapshot; only
`MemoryTiersTest.cpp` exercises it. -/
structure CacheAllocatorConfig where
  cacheSize : Nat
  tiers : List MemoryTierCacheConfig
  tiersFrozen : Bool
deriving DecidableEq, Repr

/-- Sum of the `size` fields of a tier list. -/
def sumSizes (ts : List MemoryTierCacheConfig) : Nat :=
  (ts.map MemoryTierCacheConfig.size).sum

/-- Sum of the `ratio` fields of a tier list. -/
def sumRatios (ts : List MemoryTierCacheConfig) : Nat :=
  (ts.map MemoryTierCacheConfig.ratio).sum

/-- Modelled from the spec: the all-ratio size assignment of the resolver.
With `q = totalCacheSize / sum(ratio)`, every tier `i < T-1` receives
`size_i = q * ratio_i`, and the last tier receives the remaining capacity so
the sizes add up to `totalCacheSize` exactly. -/
def resolveRatios (q remaining : Nat) : List MemoryTierCacheConfig → List MemoryTierCacheConfig
  | [] => []
  | [t] => [{ t with size := remaining }]
  | t :: rest => { t with size := q * t.ratio } :: resolveRatios q (remaining - q * t.ratio) rest

/-- Modelled from the spec: `CacheAllocatorConfig::configureMemoryTiers`
followed by `validate()`, i.e. the validation algorithm run when the tier
configuration is frozen (spec section 4.4):
1. every tier must have exactly one of `size > 0`, `ratio > 0`, and mixing
   size-specified with ratio-specified tiers is rejected (`InvalidConfig`);
2. all-size: if `totalCacheSize = 0` it becomes `sum(size_i)`, otherwise the
   sum must equal `totalCacheSize`; the configuration is frozen;
3. all-ratio: requires `totalCacheSize > 0` and `sum(ratio_i) ≤ totalCacheSize`
   (otherwise PartitionsTooLarge); sizes are assigned by `resolveRatios` with
   `q = totalCacheSize / sum(ratio_i)`. -/
def freezeMemoryTiers (c : CacheAllocatorConfig) (ts : List MemoryTierCacheConfig) :
    Except ConfigError CacheAllocatorConfig :=
  if (∀ t ∈ ts, (0 < t.size ∧ t.ratio = 0) ∨ (t.size = 0 ∧ 0 < t.ratio)) then
    if (∀ t ∈ ts, 0 < t.size) then
      if c.cacheSize = 0 then
        .ok { cacheSize := sumSizes ts, tiers := ts, tiersFrozen := true }
      else if sumSizes ts = c.cacheSize then
        .ok { cacheSize := c.cacheSize, tiers := ts, tiersFrozen := true }
      else .error .invalidConfig
    else if (∀ t ∈ ts, 0 < t.ratio) then
      if c.cacheSize = 0 ∨ c.cacheSize < sumRatios ts then
        .error .partitionsTooLarge
      else
        .ok { cacheSize := c.cacheSize,
              tiers := resolveRatios (c.cacheSize / sumRatios ts) c.cacheSize ts,
              tiersFrozen := true }
    else .error .invalidConfig
  else .error .invalidConfig

/-- Modelled from the spec: `CacheAllocatorConfig::setCacheSize`; after the
tier configuration is frozen, further `setCacheSize` calls are rejected with
`InvalidConfig` (`std::invalid_argument`), leaving the configuration as it
was. -/
def setCacheSize (c : CacheAllocatorConfig) (n : Nat) :
    Except ConfigError CacheAllocatorConfig :=
  if c.tiersFrozen then .error .invalidConfig
  else .ok { c with cacheSize := n }

/-- Modelled from the spec: the `SlabAllocator` state needed by pointer
compression — the arena base address and the arena size in bytes
(`SlabAllocator.h` is not part of the source snapshot). -/
structure SlabAllocator where
  base : Nat
  memorySize : Nat
deriving DecidableEq, Repr

namespace SlabAllocator

/-- Modelled from the spec: `SlabAllocator::isMemoryInAllocator` — the
address lies within the arena. -/
def isMemoryInAllocator (al : SlabAllocator) (addr : Nat) : Bool :=
  decide (al.base ≤ addr ∧ addr < al.base + al.memorySize)

/-- Modelled from the spec: single-tier `SlabAllocator::compress` — the
slab index is `(addr - base) >> kNumSlabBits`, the allocation index is
`((addr - base) & (2 ^ kNumSlabBits - 1)) >> kMinAllocPower`, and the tier
bits of the resulting compressed pointer are zero. -/
def compress (al : SlabAllocator) (addr : Nat) : Nat :=
  CompressedPtr.compress ((addr - al.base) / 2 ^ kNumSlabBits)
    (((addr - al.base) % 2 ^ kNumSlabBits) / 2 ^ kMinAllocPower) 0

end SlabAllocator

namespace PtrCompressor

/-- PtrCompressor::compress from `CompressedPtr.h`: a null input pointer
(modelled as `none`) yields the default-constructed `CompressedPtr`, whose
word is the null sentinel.  Otherwise the tiers are probed linearly with the
loop `for (tid = 0; tid < allocators_.size(); tid++) if (isMemoryInAllocator) break;`
— modelled exactly by `List.findIdx`, which returns the list length when no
tier matches — and then `allocators_[tid]` is accessed unconditionally: when
`tid` equals the array size that access is out of bounds, modelled as `none`.
On success the single-tier compressed word is stamped with `setTierId(tid)`. -/
def compress (allocators : List SlabAllocator) (uncompressed : Option Nat) : Option Nat :=
  match uncompressed with
  | none => some CompressedPtr.kNull
  | some addr =>
    let tid := allocators.findIdx (fun al => al.isMemoryInAllocator addr)
    match allocators[tid]? with
    | none => none
    | some al => some (CompressedPtr.setTierId (al.compress addr) tid)

end PtrCompressor

/-! Helper lemmas about the compressed-pointer word. -/

/-- Normal form of `compress` when all three components are in range: no
modular reduction actually occurs and the word is
`tid * 2^32 + slabIdx * 2^16 + allocIdx`. -/
theorem compress_word_eq (slabIdx allocIdx tid : Nat)
    (hs : slabIdx < 2 ^ 16) (ha : allocIdx < 2 ^ 16) (ht : tid < 2 ^ 32) :
    CompressedPtr.compress slabIdx allocIdx tid
      = tid * 2 ^ 32 + slabIdx * 2 ^ 16 + allocIdx := by
  simp only [CompressedPtr.compress, CompressedPtr.kNumTierIdxOffset,
    CompressedPtr.kNumAllocIdxBits, kNumSlabBits, kMinAllocPower] at *
  norm_num at *
  omega

/-- Claim C1: for every tierId `tid < 2^32`, every `slabIdx < 2^16 - 1` and
every `allocIdx < 2^16` (with `S = kNumSlabBits = 22`, `M = kMinAllocPower = 6`),
the accessors `getTierId`, `getSlabIdx`, `getAllocIdx` applied to the word
produced by `CompressedPtr::compress(slabIdx, allocIdx, tid)` return exactly
`tid`, `slabIdx` and `allocIdx`. -/
theorem claim_C1_compress_roundtrip (tid slabIdx allocIdx : Nat)
    (ht : tid < 2 ^ 32) (hs : slabIdx < 2 ^ 16 - 1) (ha : allocIdx < 2 ^ 16) :
    CompressedPtr.getTierId (CompressedPtr.compress slabIdx allocIdx tid) = tid ∧
    CompressedPtr.getSlabIdx (CompressedPtr.compress slabIdx allocIdx tid) = slabIdx ∧
    CompressedPtr.getAllocIdx (CompressedPtr.compress slabIdx allocIdx tid) = allocIdx := by
  rw [compress_word_eq slabIdx allocIdx tid (by omega) ha ht]
  simp only [CompressedPtr.getTierId, CompressedPtr.getSlabIdx,
    CompressedPtr.getAllocIdx, CompressedPtr.kNumTierIdxOffset,
    CompressedPtr.kNumAllocIdxBits, kNumSlabBits, kMinAllocPower]
  norm_num
  omega

/-- Witness for claim C1 at the concrete triple `tid = 7`, `slabIdx = 9`,
`allocIdx = 11`. -/
theorem claim_C1_witness :
    7 < 2 ^ 32 ∧ 9 < 2 ^ 16 - 1 ∧ 11 < 2 ^ 16 ∧
    (CompressedPtr.getTierId (CompressedPtr.compress 9 11 7) = 7 ∧
     CompressedPtr.getSlabIdx (CompressedPtr.compress 9 11 7) = 9 ∧
     CompressedPtr.getAllocIdx (CompressedPtr.compress 9 11 7) = 11) :=
  ⟨by norm_num, by norm_num, by norm_num,
   claim_C1_compress_roundtrip 7 9 11 (by norm_num) (by norm_num) (by norm_num)⟩

/-- Claim C3: for every in-range triple the 64-bit word produced by
`CompressedPtr::compress` differs from the null sentinel
`0x00000000ffffffff`; equivalently `isNull()` is false on it. -/
theorem claim_C3_compress_never_null (tid slabIdx allocIdx : Nat)
    (ht : tid < 2 ^ 32) (hs : slabIdx < 2 ^ 16 - 1) (ha : allocIdx < 2 ^ 16) :
    CompressedPtr.compress slabIdx allocIdx tid ≠ CompressedPtr.kNull ∧
    CompressedPtr.isNull (CompressedPtr.compress slabIdx allocIdx tid) = false := by
  rw [compress_word_eq slabIdx allocIdx tid (by omega) ha ht]
  simp only [CompressedPtr.isNull, CompressedPtr.kNull, decide_eq_false_iff_not]
  norm_num
  omega

/-- Witness for claim C3 at the concrete triple `tid = 0`, `slabIdx = 65534`,
`allocIdx = 65535` (the largest in-range values of the low word). -/
theorem claim_C3_witness :
    0 < 2 ^ 32 ∧ 65534 < 2 ^ 16 - 1 ∧ 65535 < 2 ^ 16 ∧
    (CompressedPtr.compress 65534 65535 0 ≠ CompressedPtr.kNull ∧
     CompressedPtr.isNull (CompressedPtr.compress 65534 65535 0) = false) :=
  ⟨by norm_num, by norm_num, by norm_num,
   claim_C3_compress_never_null 0 65534 65535 (by norm_num) (by norm_num) (by norm_num)⟩

/-- Claim C4: a word built by `compress` with tier argument 0 has
`getTierId() = 0`, and after `setTierId(tid)` (a 64-bit addition of
`tid << 32`) `getTierId()` returns `tid` while `getSlabIdx()` and
`getAllocIdx()` are unchanged, for every `tid < 2^32`. -/
theorem claim_C4_setTierId_frame (slabIdx allocIdx tid : Nat)
    (hs : slabIdx < 2 ^ 16 - 1) (ha : allocIdx < 2 ^ 16) (ht : tid < 2 ^ 32) :
    CompressedPtr.getTierId (CompressedPtr.compress slabIdx allocIdx 0) = 0 ∧
    CompressedPtr.getTierId
      (CompressedPtr.setTierId (CompressedPtr.compress slabIdx allocIdx 0) tid) = tid ∧
    CompressedPtr.getSlabIdx
      (CompressedPtr.setTierId (CompressedPtr.compress slabIdx allocIdx 0) tid)
      = CompressedPtr.getSlabIdx (CompressedPtr.compress slabIdx allocIdx 0) ∧
    CompressedPtr.getAllocIdx
      (CompressedPtr.setTierId (CompressedPtr.compress slabIdx allocIdx 0) tid)
      = CompressedPtr.getAllocIdx (CompressedPtr.compress slabIdx allocIdx 0) := by
  rw [compress_word_eq slabIdx allocIdx 0 (by omega) ha (by norm_num)]
  simp only [CompressedPtr.getTierId, CompressedPtr.getSlabIdx,
    CompressedPtr.getAllocIdx, CompressedPtr.setTierId,
    CompressedPtr.kNumTierIdxOffset, CompressedPtr.kNumAllocIdxBits,
    kNumSlabBits, kMinAllocPower]
  norm_num
  omega

/-- Witness for claim C4 at `slabIdx = 3`, `allocIdx = 5`, `tid = 4294967295`
(the largest 32-bit tier id). -/
theorem claim_C4_witness :
    3 < 2 ^ 16 - 1 ∧ 5 < 2 ^ 16 ∧ 4294967295 < 2 ^ 32 ∧
    (CompressedPtr.getTierId (CompressedPtr.compress 3 5 0) = 0 ∧
     CompressedPtr.getTierId
       (CompressedPtr.setTierId (CompressedPtr.compress 3 5 0) 4294967295) = 4294967295 ∧
     CompressedPtr.getSlabIdx
       (CompressedPtr.setTierId (CompressedPtr.compress 3 5 0) 4294967295)
       = CompressedPtr.getSlabIdx (CompressedPtr.compress 3 5 0) ∧
     CompressedPtr.getAllocIdx
       (CompressedPtr.setTierId (CompressedPtr.compress 3 5 0) 4294967295)
       = CompressedPtr.getAllocIdx (CompressedPtr.compress 3 5 0)) :=
  ⟨by norm_num, by norm_num, by norm_num,
   claim_C4_setTierId_frame 3 5 4294967295 (by norm_num) (by norm_num) (by norm_num)⟩

/-- Claim C8: with `S = 22` and `M = 6`, `compress(slabIdx = 3, allocIdx = 5,
tid = 2)` produces the raw word `(2 <<< 32) ||| (3 <<< 16) ||| 5`; the three
accessors recover `(2, 3, 5)`; `isNull()` on it is false; and the sentinel
word `0x00000000ffffffff` has `isNull()` true. -/
theorem claim_C8_concrete_word :
    CompressedPtr.compress 3 5 2 = (2 <<< 32) ||| (3 <<< 16) ||| 5 ∧
    CompressedPtr.getTierId (CompressedPtr.compress 3 5 2) = 2 ∧
    CompressedPtr.getSlabIdx (CompressedPtr.compress 3 5 2) = 3 ∧
    CompressedPtr.getAllocIdx (CompressedPtr.compress 3 5 2) = 5 ∧
    CompressedPtr.isNull (CompressedPtr.compress 3 5 2) = false ∧
    CompressedPtr.isNull 0x00000000ffffffff = true := by
  decide

/-! Helper lemmas about the all-ratio size assignment. -/

/-- Unfolding lemma: `sumRatios` on a cons. -/
theorem sumRatios_cons (t : MemoryTierCacheConfig) (l : List MemoryTierCacheConfig) :
    sumRatios (t :: l) = t.ratio + sumRatios l := by
  simp [sumRatios]

/-- Unfolding lemma: `sumSizes` on a cons. -/
theorem sumSizes_cons (t : MemoryTierCacheConfig) (l : List MemoryTierCacheConfig) :
    sumSizes (t :: l) = t.size + sumSizes l := by
  simp [sumSizes]

/-- The sizes assigned by `resolveRatios` add up exactly to the remaining
capacity, provided the assignments to the non-last tiers fit
(`q * sum(ratio) ≤ remaining`) and there is at least one tier. -/
theorem sumSizes_resolveRatios (q : Nat) :
    ∀ (ts : List MemoryTierCacheConfig) (rem : Nat), ts ≠ [] →
      q * sumRatios ts ≤ rem → sumSizes (resolveRatios q rem ts) = rem := by
  intro ts
  induction ts with
  | nil => intro rem h _; exact absurd rfl h
  | cons t rest ih =>
    intro rem _ hle
    cases rest with
    | nil => simp [resolveRatios, sumSizes]
    | cons t2 rs =>
      have hstep : resolveRatios q rem (t :: t2 :: rs)
          = { t with size := q * t.ratio }
            :: resolveRatios q (rem - q * t.ratio) (t2 :: rs) := rfl
      have hmul : q * sumRatios (t :: t2 :: rs)
          = q * t.ratio + q * sumRatios (t2 :: rs) := by
        rw [sumRatios_cons, Nat.mul_add]
      have ih2 := ih (rem - q * t.ratio) (by simp) (by omega)
      rw [hstep, sumSizes_cons, ih2]
      show q * t.ratio + (rem - q * t.ratio) = rem
      omega

/-- Every size assigned by `resolveRatios` is strictly positive when `q ≥ 1`,
every ratio is strictly positive, and the non-last assignments fit. -/
theorem resolveRatios_size_pos (q : Nat) :
    ∀ (ts : List MemoryTierCacheConfig) (rem : Nat),
      (∀ t ∈ ts, 0 < t.ratio) → 1 ≤ q → q * sumRatios ts ≤ rem →
      ∀ t2 ∈ resolveRatios q rem ts, 0 < t2.size := by
  intro ts
  induction ts with
  | nil => intro rem _ _ _ t2 ht2; simp [resolveRatios] at ht2
  | cons t rest ih =>
    intro rem hr hq hle t2 ht2
    cases rest with
    | nil =>
      simp only [resolveRatios, List.mem_singleton] at ht2
      subst ht2
      have hpos : 0 < q * t.ratio := Nat.mul_pos hq (hr t (by simp))
      have hsum : sumRatios [t] = t.ratio := by simp [sumRatios]
      simp only []
      rw [hsum] at hle
      omega
    | cons t3 rs =>
      have hstep : resolveRatios q rem (t :: t3 :: rs)
          = { t with size := q * t.ratio }
            :: resolveRatios q (rem - q * t.ratio) (t3 :: rs) := rfl
      rw [hstep, List.mem_cons] at ht2
      have hmul : q * sumRatios (t :: t3 :: rs)
          = q * t.ratio + q * sumRatios (t3 :: rs) := by
        rw [sumRatios_cons, Nat.mul_add]
      rcases ht2 with h | h
      · subst h
        exact Nat.mul_pos hq (hr t (by simp))
      · exact ih (rem - q * t.ratio) (fun u hu => hr u (by simp [hu]))
          hq (by omega) t2 h

/-- Closed form of the `resolveRatios` assignment: every tier but the last
receives `q * ratio_i`, and the last receives the remaining capacity
`rem - Σ_{i<T-1} q * ratio_i`. -/
theorem resolveRatios_map_size (q : Nat) :
    ∀ (ts : List MemoryTierCacheConfig) (rem : Nat), ts ≠ [] →
      (resolveRatios q rem ts).map MemoryTierCacheConfig.size
        = ts.dropLast.map (fun t => q * t.ratio)
          ++ [rem - (ts.dropLast.map (fun t => q * t.ratio)).sum] := by
  intro ts
  induction ts with
  | nil => intro rem h; exact absurd rfl h
  | cons t rest ih =>
    intro rem _
    cases rest with
    | nil => simp [resolveRatios]
    | cons t2 rs =>
      have hstep : resolveRatios q rem (t :: t2 :: rs)
          = { t with size := q * t.ratio }
            :: resolveRatios q (rem - q * t.ratio) (t2 :: rs) := rfl
      have hdrop : (t :: t2 :: rs).dropLast = t :: (t2 :: rs).dropLast := rfl
      rw [hstep, List.map_cons, ih (rem - q * t.ratio) (by simp), hdrop,
        List.map_cons, List.cons_append, List.sum_cons, Nat.sub_sub]

/-- Claim C2 counterexample: one tier with `ratio = 2` and
`totalCacheSize = 1` satisfies the claim hypotheses (`ratio > 0` for every
tier, `totalCacheSize > 0`), yet the resolver rejects the configuration with
PartitionsTooLarge instead of assigning positive sizes summing to the total:
the claim as stated omits the condition `sum(ratio) ≤ totalCacheSize`. -/
theorem claim_C2_counterexample :
    (∀ t ∈ [({ size := 0, ratio := 2 } : MemoryTierCacheConfig)], 0 < t.ratio) ∧
    0 < (1 : Nat) ∧
    freezeMemoryTiers { cacheSize := 1, tiers := [], tiersFrozen := false }
      [{ size := 0, ratio := 2 }] = .error .partitionsTooLarge :=
  ⟨by decide, by decide, rfl⟩

/-- Claim C2 (amended): when every tier has only its ratio set (`ratio > 0`,
`size = 0`), `totalCacheSize > 0`, and additionally
`sum(ratio_i) ≤ totalCacheSize`, the resolver succeeds and assigns, with
`q = totalCacheSize / sum(ratio)` in integer division, `size_i = q * ratio_i`
to every tier `i < T-1` and the remaining capacity to the last tier, so that
the sizes sum exactly to `totalCacheSize` and every size is strictly
positive. -/
theorem claim_C2_ratio_resolution (c : CacheAllocatorConfig)
    (ts : List MemoryTierCacheConfig) (hne : ts ≠ [])
    (hall : ∀ t ∈ ts, t.size = 0 ∧ 0 < t.ratio)
    (hpos : 0 < c.cacheSize) (hle : sumRatios ts ≤ c.cacheSize) :
    freezeMemoryTiers c ts
      = .ok { cacheSize := c.cacheSize,
              tiers := resolveRatios (c.cacheSize / sumRatios ts) c.cacheSize ts,
              tiersFrozen := true } ∧
    (resolveRatios (c.cacheSize / sumRatios ts) c.cacheSize ts).map
        MemoryTierCacheConfig.size
      = ts.dropLast.map (fun t => (c.cacheSize / sumRatios ts) * t.ratio)
        ++ [c.cacheSize
            - (ts.dropLast.map (fun t => (c.cacheSize / sumRatios ts) * t.ratio)).sum] ∧
    sumSizes (resolveRatios (c.cacheSize / sumRatios ts) c.cacheSize ts)
      = c.cacheSize ∧
    ∀ t2 ∈ resolveRatios (c.cacheSize / sumRatios ts) c.cacheSize ts,
      0 < t2.size := by
  obtain ⟨t0, ts0, rfl⟩ : ∃ t0 ts0, ts = t0 :: ts0 := by
    cases ts with
    | nil => exact absurd rfl hne
    | cons a l => exact ⟨a, l, rfl⟩
  have hsumpos : 0 < sumRatios (t0 :: ts0) := by
    have := (hall t0 (by simp)).2
    rw [sumRatios_cons]
    omega
  have hq : 1 ≤ c.cacheSize / sumRatios (t0 :: ts0) :=
    (Nat.one_le_div_iff hsumpos).mpr hle
  have hfit : (c.cacheSize / sumRatios (t0 :: ts0)) * sumRatios (t0 :: ts0)
      ≤ c.cacheSize := Nat.div_mul_le_self _ _
  refine ⟨?_, resolveRatios_map_size _ _ _ (by simp),
    sumSizes_resolveRatios _ _ _ (by simp) hfit,
    resolveRatios_size_pos _ _ _ (fun t ht => (hall t ht).2) hq hfit⟩
  unfold freezeMemoryTiers
  rw [if_pos (fun t ht => Or.inr (hall t ht))]
  rw [if_neg (by
    intro hallsize
    have h1 := (hall t0 (by simp)).1
    have h2 := hallsize t0 (by simp)
    omega)]
  rw [if_pos (fun t ht => (hall t ht).2)]
  rw [if_neg (by
    push_neg
    exact ⟨by omega, by omega⟩)]

/-- Witness for the amended claim C2: two tiers with ratios `(5, 2)` and
`totalCacheSize = 2^30` (the spec scenario); the resolver succeeds, the
sizes follow the closed form, sum to `2^30`, and are positive. -/
theorem claim_C2_witness :
    ([({ size := 0, ratio := 5 } : MemoryTierCacheConfig), { size := 0, ratio := 2 }]
        ≠ ([] : List MemoryTierCacheConfig)) ∧
    (∀ t ∈ [({ size := 0, ratio := 5 } : MemoryTierCacheConfig), { size := 0, ratio := 2 }],
        t.size = 0 ∧ 0 < t.ratio) ∧
    0 < (1073741824 : Nat) ∧
    sumRatios [({ size := 0, ratio := 5 } : MemoryTierCacheConfig), { size := 0, ratio := 2 }]
        ≤ 1073741824 ∧
    (freezeMemoryTiers { cacheSize := 1073741824, tiers := [], tiersFrozen := false }
        [{ size := 0, ratio := 5 }, { size := 0, ratio := 2 }]
      = .ok { cacheSize := 1073741824,
              tiers := resolveRatios
                (1073741824 / sumRatios [{ size := 0, ratio := 5 }, { size := 0, ratio := 2 }])
                1073741824 [{ size := 0, ratio := 5 }, { size := 0, ratio := 2 }],
              tiersFrozen := true } ∧
     (resolveRatios
         (1073741824 / sumRatios [{ size := 0, ratio := 5 }, { size := 0, ratio := 2 }])
         1073741824 [{ size := 0, ratio := 5 }, { size := 0, ratio := 2 }]).map
         MemoryTierCacheConfig.size
       = [({ size := 0, ratio := 5 } : MemoryTierCacheConfig),
          { size := 0, ratio := 2 }].dropLast.map
           (fun t => (1073741824
              / sumRatios [{ size := 0, ratio := 5 }, { size := 0, ratio := 2 }]) * t.ratio)
         ++ [1073741824
             - ([({ size := 0, ratio := 5 } : MemoryTierCacheConfig),
                 { size := 0, ratio := 2 }].dropLast.map
                  (fun t => (1073741824
                     / sumRatios [{ size := 0, ratio := 5 },
                         { size := 0, ratio := 2 }]) * t.ratio)).sum] ∧
     sumSizes (resolveRatios
         (1073741824 / sumRatios [{ size := 0, ratio := 5 }, { size := 0, ratio := 2 }])
         1073741824 [{ size := 0, ratio := 5 }, { size := 0, ratio := 2 }])
       = 1073741824 ∧
     ∀ t2 ∈ resolveRatios
         (1073741824 / sumRatios [{ size := 0, ratio := 5 }, { size := 0, ratio := 2 }])
         1073741824 [{ size := 0, ratio := 5 }, { size := 0, ratio := 2 }],
       0 < t2.size) :=
  ⟨by decide, by decide, by decide, by decide,
   claim_C2_ratio_resolution
     { cacheSize := 1073741824, tiers := [], tiersFrozen := false }
     [{ size := 0, ratio := 5 }, { size := 0, ratio := 2 }]
     (by decide) (by decide) (by decide) (by decide)⟩

/-- Shape of the freeze on an all-ratio tier list: the partition and
homogeneity checks pass and the outcome is decided by the PartitionsTooLarge
guard. -/
theorem freeze_allRatio_eq (c : CacheAllocatorConfig)
    (ts : List MemoryTierCacheConfig) (hne : ts ≠ [])
    (hall : ∀ t ∈ ts, t.size = 0 ∧ 0 < t.ratio) :
    freezeMemoryTiers c ts
      = if c.cacheSize = 0 ∨ c.cacheSize < sumRatios ts then
          .error .partitionsTooLarge
        else
          .ok { cacheSize := c.cacheSize,
                tiers := resolveRatios (c.cacheSize / sumRatios ts) c.cacheSize ts,
                tiersFrozen := true } := by
  obtain ⟨t0, ts0, rfl⟩ : ∃ t0 ts0, ts = t0 :: ts0 := by
    cases ts with
    | nil => exact absurd rfl hne
    | cons a l => exact ⟨a, l, rfl⟩
  unfold freezeMemoryTiers
  rw [if_pos (fun t ht => Or.inr (hall t ht))]
  rw [if_neg (by
    intro hallsize
    have h1 := (hall t0 (by simp)).1
    have h2 := hallsize t0 (by simp)
    omega)]
  rw [if_pos (fun t ht => (hall t ht).2)]

/-- Claim C5: when every tier has an explicit `size > 0` (ratio unset) and
the configured `totalCacheSize` is 0, freezing sets the total to the sum of
the tier sizes, and every subsequent `setCacheSize` call on the frozen
configuration is rejected with InvalidConfig (`std::invalid_argument`),
leaving the total unchanged. -/
theorem claim_C5_size_freeze (c : CacheAllocatorConfig)
    (ts : List MemoryTierCacheConfig)
    (hall : ∀ t ∈ ts, 0 < t.size ∧ t.ratio = 0) (h0 : c.cacheSize = 0) :
    freezeMemoryTiers c ts
      = .ok { cacheSize := sumSizes ts, tiers := ts, tiersFrozen := true } ∧
    ∀ n, setCacheSize { cacheSize := sumSizes ts, tiers := ts, tiersFrozen := true } n
      = .error .invalidConfig := by
  constructor
  · unfold freezeMemoryTiers
    rw [if_pos (fun t ht => Or.inl (hall t ht))]
    rw [if_pos (fun t ht => (hall t ht).1)]
    rw [if_pos h0]
  · intro n
    rfl

/-- Witness for claim C5: two tiers with explicit sizes `(4321, 1234)` and
`totalCacheSize = 0`; the freeze produces total `5555` and `setCacheSize 5556`
on the frozen configuration is rejected. -/
theorem claim_C5_witness :
    (∀ t ∈ [({ size := 4321, ratio := 0 } : MemoryTierCacheConfig),
            { size := 1234, ratio := 0 }], 0 < t.size ∧ t.ratio = 0) ∧
    ({ cacheSize := 0, tiers := [], tiersFrozen := false } :
        CacheAllocatorConfig).cacheSize = 0 ∧
    (freezeMemoryTiers { cacheSize := 0, tiers := [], tiersFrozen := false }
        [{ size := 4321, ratio := 0 }, { size := 1234, ratio := 0 }]
      = .ok { cacheSize := 5555,
              tiers := [{ size := 4321, ratio := 0 }, { size := 1234, ratio := 0 }],
              tiersFrozen := true } ∧
     setCacheSize
        { cacheSize := 5555,
          tiers := [{ size := 4321, ratio := 0 }, { size := 1234, ratio := 0 }],
          tiersFrozen := true } 5556
      = .error .invalidConfig) :=
  ⟨by decide, rfl,
   (claim_C5_size_freeze { cacheSize := 0, tiers := [], tiersFrozen := false }
     [{ size := 4321, ratio := 0 }, { size := 1234, ratio := 0 }]
     (by decide) rfl).1,
   (claim_C5_size_freeze { cacheSize := 0, tiers := [], tiersFrozen := false }
     [{ size := 4321, ratio := 0 }, { size := 1234, ratio := 0 }]
     (by decide) rfl).2 5556⟩

/-- Claim C6: on an all-ratio tier list (every ratio strictly positive),
validation fails with the InvalidConfig kind reported as PartitionsTooLarge
whenever `totalCacheSize = 0` or `sum(ratio_i) > totalCacheSize`; and under
the accepted condition `sum(ratio_i) ≤ totalCacheSize` the freeze succeeds
with every resolved tier size strictly positive. -/
theorem claim_C6_partitions_too_large (c : CacheAllocatorConfig)
    (ts : List MemoryTierCacheConfig) (hne : ts ≠ [])
    (hall : ∀ t ∈ ts, t.size = 0 ∧ 0 < t.ratio) :
    ((c.cacheSize = 0 ∨ c.cacheSize < sumRatios ts) →
      freezeMemoryTiers c ts = .error .partitionsTooLarge) ∧
    (sumRatios ts ≤ c.cacheSize →
      ∃ c2, freezeMemoryTiers c ts = .ok c2 ∧ ∀ t2 ∈ c2.tiers, 0 < t2.size) := by
  obtain ⟨t0, ts0, rfl⟩ : ∃ t0 ts0, ts = t0 :: ts0 := by
    cases ts with
    | nil => exact absurd rfl hne
    | cons a l => exact ⟨a, l, rfl⟩
  constructor
  · intro h
    rw [freeze_allRatio_eq c _ (by simp) hall, if_pos h]
  · intro hle
    have hsumpos : 0 < sumRatios (t0 :: ts0) := by
      have := (hall t0 (by simp)).2
      rw [sumRatios_cons]
      omega
    have hq : 1 ≤ c.cacheSize / sumRatios (t0 :: ts0) :=
      (Nat.one_le_div_iff hsumpos).mpr hle
    have hfit : (c.cacheSize / sumRatios (t0 :: ts0)) * sumRatios (t0 :: ts0)
        ≤ c.cacheSize := Nat.div_mul_le_self _ _
    refine ⟨{ cacheSize := c.cacheSize,
              tiers := resolveRatios (c.cacheSize / sumRatios (t0 :: ts0))
                c.cacheSize (t0 :: ts0),
              tiersFrozen := true }, ?_, ?_⟩
    · rw [freeze_allRatio_eq c _ (by simp) hall, if_neg (by push_neg; omega)]
    · exact resolveRatios_size_pos _ _ _ (fun t ht => (hall t ht).2) hq hfit

/-- Witness for claim C6: both branches at concrete inputs.  Two tiers with
ratios `(2^30, 1)` and `totalCacheSize = 2^30` (the PartitionsTooLarge test)
are rejected, and the same total with ratios `(5, 2)` resolves with positive
sizes. -/
theorem claim_C6_witness :
    (∀ t ∈ [({ size := 0, ratio := 1073741824 } : MemoryTierCacheConfig),
            { size := 0, ratio := 1 }], t.size = 0 ∧ 0 < t.ratio) ∧
    ((1073741824 : Nat) = 0 ∨ (1073741824 : Nat)
        < sumRatios [{ size := 0, ratio := 1073741824 }, { size := 0, ratio := 1 }]) ∧
    freezeMemoryTiers { cacheSize := 1073741824, tiers := [], tiersFrozen := false }
        [{ size := 0, ratio := 1073741824 }, { size := 0, ratio := 1 }]
      = .error .partitionsTooLarge ∧
    sumRatios [({ size := 0, ratio := 5 } : MemoryTierCacheConfig),
        { size := 0, ratio := 2 }] ≤ 1073741824 ∧
    ∃ c2, freezeMemoryTiers
        { cacheSize := 1073741824, tiers := [], tiersFrozen := false }
        [{ size := 0, ratio := 5 }, { size := 0, ratio := 2 }]
      = .ok c2 ∧ ∀ t2 ∈ c2.tiers, 0 < t2.size :=
  ⟨by decide, by decide,
   (claim_C6_partitions_too_large
      { cacheSize := 1073741824, tiers := [], tiersFrozen := false }
      [{ size := 0, ratio := 1073741824 }, { size := 0, ratio := 1 }]
      (by decide) (by decide)).1 (by decide),
   by decide,
   (claim_C6_partitions_too_large
      { cacheSize := 1073741824, tiers := [], tiersFrozen := false }
      [{ size := 0, ratio := 5 }, { size := 0, ratio := 2 }]
      (by decide) (by decide)).2 (by decide)⟩

/-- Claim C7: the tier configuration is rejected with InvalidConfig
(`std::invalid_argument`) whenever the size-specified tiers and the
ratio-specified tiers do not partition the tier list into one homogeneous
whole — i.e. unless either every tier has `size > 0` with ratio unset, or
every tier has `ratio > 0` with size unset.  This covers a tier with both
set, a mix of size-specified and ratio-specified tiers, and a tier with
neither set. -/
theorem claim_C7_mixed_or_unset_rejected (c : CacheAllocatorConfig)
    (ts : List MemoryTierCacheConfig)
    (h : ¬ ((∀ t ∈ ts, 0 < t.size ∧ t.ratio = 0)
            ∨ (∀ t ∈ ts, 0 < t.ratio ∧ t.size = 0))) :
    freezeMemoryTiers c ts = .error .invalidConfig := by
  unfold freezeMemoryTiers
  by_cases h1 : ∀ t ∈ ts, (0 < t.size ∧ t.ratio = 0) ∨ (t.size = 0 ∧ 0 < t.ratio)
  · rw [if_pos h1]
    by_cases h2 : ∀ t ∈ ts, 0 < t.size
    · exfalso
      apply h
      left
      intro t ht
      rcases h1 t ht with hcase | hcase
      · exact hcase
      · exact absurd (h2 t ht) (by omega)
    · rw [if_neg h2]
      by_cases h3 : ∀ t ∈ ts, 0 < t.ratio
      · exfalso
        apply h
        right
        intro t ht
        rcases h1 t ht with hcase | hcase
        · exact absurd (h3 t ht) (by omega)
        · exact ⟨hcase.2, hcase.1⟩
      · rw [if_neg h3]
  · rw [if_neg h1]

/-- Witness for claim C7: two tiers where the second sets both size and
ratio (the mixed test case); the freeze is rejected with InvalidConfig. -/
theorem claim_C7_witness :
    (¬ ((∀ t ∈ [({ size := 0, ratio := 1 } : MemoryTierCacheConfig),
               { size := 1, ratio := 1 }], 0 < t.size ∧ t.ratio = 0)
        ∨ (∀ t ∈ [({ size := 0, ratio := 1 } : MemoryTierCacheConfig),
               { size := 1, ratio := 1 }], 0 < t.ratio ∧ t.size = 0))) ∧
    freezeMemoryTiers { cacheSize := 1073741824, tiers := [], tiersFrozen := false }
        [{ size := 0, ratio := 1 }, { size := 1, ratio := 1 }]
      = .error .invalidConfig :=
  ⟨by decide,
   claim_C7_mixed_or_unset_rejected
     { cacheSize := 1073741824, tiers := [], tiersFrozen := false }
     [{ size := 0, ratio := 1 }, { size := 1, ratio := 1 }] (by decide)⟩

/-- Unfolding equation for `PtrCompressor.compress` on a non-null address:
the outer match and the `let` for the probed tier index reduce. -/
theorem ptrCompressor_compress_some (allocators : List SlabAllocator) (addr : Nat) :
    PtrCompressor.compress allocators (some addr)
      = match allocators[(allocators.findIdx
            fun al => al.isMemoryInAllocator addr)]? with
        | none => none
        | some al => some (CompressedPtr.setTierId (al.compress addr)
            (allocators.findIdx fun al => al.isMemoryInAllocator addr)) := rfl

/-- Claim C9: for a non-null address lying in at least one tier's allocator,
`PtrCompressor::compress` terminates with `tid` equal to the index of the
first matching tier (every earlier tier does not contain the address), never
indexes the allocator array out of bounds (`tid < T`, so the array access
yields a value), and stamps that `tid` into the compressed result via
`setTierId`; a null input instead returns the null sentinel without probing
any tier. -/
theorem claim_C9_ptr_compressor_probe (allocators : List SlabAllocator)
    (addr : Nat) (h : ∃ al ∈ allocators, al.isMemoryInAllocator addr = true) :
    (allocators.findIdx fun al => al.isMemoryInAllocator addr)
        < allocators.length ∧
    (∀ j, j < (allocators.findIdx fun al => al.isMemoryInAllocator addr) →
      ∀ al2, allocators[j]? = some al2 →
        al2.isMemoryInAllocator addr = false) ∧
    (∃ al2,
      allocators[(allocators.findIdx fun al => al.isMemoryInAllocator addr)]?
          = some al2 ∧
      al2.isMemoryInAllocator addr = true ∧
      PtrCompressor.compress allocators (some addr)
        = some (CompressedPtr.setTierId (al2.compress addr)
            (allocators.findIdx fun al => al.isMemoryInAllocator addr))) ∧
    PtrCompressor.compress allocators none = some CompressedPtr.kNull := by
  have hlt := List.findIdx_lt_length_of_exists h
  have hsome : allocators[(allocators.findIdx
      fun al => al.isMemoryInAllocator addr)]?
      = some (allocators.get ⟨_, hlt⟩) := by
    rw [List.getElem?_eq_getElem hlt]
    rfl
  refine ⟨hlt, ?_, ⟨allocators.get ⟨_, hlt⟩, hsome, ?_, ?_⟩, rfl⟩
  · intro j hj al2 hsome2
    have hjlen : j < allocators.length :=
      Nat.lt_of_lt_of_le hj (List.findIdx_le_length _)
    rw [List.getElem?_eq_getElem hjlen] at hsome2
    have hal2 : al2 = allocators[j] := (Option.some_inj.mp hsome2).symm
    rw [hal2]
    exact List.not_of_lt_findIdx hj
  · exact List.findIdx_getElem (w := hlt)
  · rw [ptrCompressor_compress_some, hsome]

/-- Witness for claim C9: a single tier whose arena is `[0, 2^22)` and the
address 64, which lies in it; the probe stops at tier 0 and the result is
the stamped single-tier compression. -/
theorem claim_C9_witness :
    (∃ al ∈ [({ base := 0, memorySize := 4194304 } : SlabAllocator)],
      al.isMemoryInAllocator 64 = true) ∧
    ([({ base := 0, memorySize := 4194304 } : SlabAllocator)].findIdx
        fun al => al.isMemoryInAllocator 64)
      < [({ base := 0, memorySize := 4194304 } : SlabAllocator)].length ∧
    PtrCompressor.compress [({ base := 0, memorySize := 4194304 } : SlabAllocator)]
        (some 64)
      = some (CompressedPtr.setTierId
          (SlabAllocator.compress { base := 0, memorySize := 4194304 } 64)
          ([({ base := 0, memorySize := 4194304 } : SlabAllocator)].findIdx
            fun al => al.isMemoryInAllocator 64)) ∧
    PtrCompressor.compress [({ base := 0, memorySize := 4194304 } : SlabAllocator)] none
      = some CompressedPtr.kNull := by
  have h := claim_C9_ptr_compressor_probe
    [{ base := 0, memorySize := 4194304 }] 64 (by decide)
  exact ⟨by decide, h.1, by decide, h.2.2.2⟩

/-- Claim C10: `MemoryTierCacheConfig::setRatio` accepts a `double` but
stores it into the `size_t` field `ratio`, so `getRatio()` afterwards
returns the integer truncation of the argument; every fractional argument
below 1 yields `getRatio() = 0`, indistinguishable from a tier whose ratio
was never set (the `fromFile` default). -/
theorem claim_C10_setRatio_truncates (c : MemoryTierCacheConfig) (r : ℚ)
    (hr : 0 ≤ r) :
    (c.setRatio r).getRatio = (⌊r⌋).toNat ∧
    (r < 1 → (c.setRatio r).getRatio = 0 ∧
      (c.setRatio r).getRatio = MemoryTierCacheConfig.fromFile.getRatio) := by
  refine ⟨rfl, fun h1 => ?_⟩
  have hfl : ⌊r⌋ = 0 := by
    rw [Int.floor_eq_zero_iff]
    exact ⟨hr, h1⟩
  constructor
  · show (⌊r⌋).toNat = 0
    rw [hfl]
    rfl
  · show (⌊r⌋).toNat = MemoryTierCacheConfig.fromFile.getRatio
    rw [hfl]
    rfl

/-- Witness for claim C10 at the fractional argument `1/2`: the stored ratio
reads back as 0. -/
theorem claim_C10_witness :
    (0 : ℚ) ≤ 1 / 2 ∧ (1 : ℚ) / 2 < 1 ∧
    (MemoryTierCacheConfig.fromFile.setRatio (1 / 2)).getRatio = 0 :=
  ⟨by norm_num, by norm_num,
   ((claim_C10_setRatio_truncates MemoryTierCacheConfig.fromFile (1 / 2)
       (by norm_num)).2 (by norm_num)).1⟩

end Cachelib
